import Mathlib

/-!
Verification of the `Raf` (random access file) byte-buffer reader from
`common/src/raf.rs` of the OpenVehicleDiag repository.

Shallow embedding conventions:
* Bytes are `Nat` (values `< 256` in real data; the bounds logic never
  depends on the byte values).
* `usize` values are `Nat`.  The one place where unsigned wrap-around is
  reachable with realistic inputs is the expression `pos + num_bytes - 1`
  in `read_bytes`: when `pos + num_bytes = 0` it underflows to
  `usize::MAX`, which exceeds any real buffer size, so the model returns
  `BufferOverflow` there (release-mode wrapping semantics).
* A Rust panic (out-of-bounds index / slice, `.expect` on `Err`) is
  modelled by the outer `Option` being `none`; a normal return is
  `some (result, newState)` with the mutated state passed explicitly.
* Rust `String`s are modelled by their UTF-8 byte sequences
  (`List Nat`); `String::from_utf8` validation is modelled by the
  executable `utf8Valid` below, the standard UTF-8 well-formedness check
  it performs.
* `f32` values are modelled by their IEEE-754 bit pattern as a `Nat`
  (the `byteorder` crate reads the 4 bytes as a `u32` and transmutes).
-/

/-- Byte order representation (`enum RafByteOrder`). -/
inductive RafByteOrder where
  | BE
  | LE
deriving Repr, DecidableEq

/-- Errors returned during reading of data (`enum RafError`). -/
inductive RafError where
  | BufferOverflow
  | StartOutOfRange
  | StrParseError
deriving Repr, DecidableEq

/-- The `Raf` struct: data bytes, max size, current position, byte order. -/
structure Raf where
  data : List Nat
  size : Nat
  pos : Nat
  bo : RafByteOrder
deriving Repr, DecidableEq

namespace Raf

/-- `Raf::from_bytes`: clones the data,`size` is its length, position 0. -/
def from_bytes (data : List Nat) (bo : RafByteOrder) : Raf :=
  { data := data, size := data.length, pos := 0, bo := bo }

/-- `Raf::read_bytes`: guard `pos + num_bytes - 1 > size` (usize
arithmetic: when `pos + num_bytes = 0` the `- 1` underflows to
`usize::MAX`, which exceeds any size), then the slice
`data[pos..pos + num_bytes]`, which panics (`none`) when
`pos + num_bytes > data.len()`. -/
def read_bytes (r : Raf) (num_bytes : Nat) :
    Option (Except RafError (List Nat) × Raf) :=
  if r.pos + num_bytes = 0 then
    some (.error .BufferOverflow, r)
  else if r.pos + num_bytes - 1 > r.size then
    some (.error .BufferOverflow, r)
  else if r.pos + num_bytes ≤ r.data.length then
    some (.ok ((r.data.drop r.pos).take num_bytes),
          { r with pos := r.pos + num_bytes })
  else
    none

/-- `Raf::seek`: unconditionally sets the position. -/
def seek (r : Raf) (pos : Nat) : Raf :=
  { r with pos := pos }

/-- `Raf::adv`: advances the position by `pos` unless the result would
exceed `size`, in which case it fails with `StartOutOfRange` and leaves
the state unchanged.  No panic path exists (no indexing). -/
def adv (r : Raf) (pos : Nat) : Except RafError Unit × Raf :=
  if r.pos + pos > r.size then (.error .StartOutOfRange, r)
  else (.ok (), { r with pos := r.pos + pos })

/-- `Raf::seek_read`: seeks to `pos`, then runs the supplied decode
function on the buffer. -/
def seek_read (r : Raf) (pos : Nat)
    (func : Raf → Option (Except RafError α × Raf)) :
    Option (Except RafError α × Raf) :=
  func (r.seek pos)

/-- `Raf::read_primitive`: reads `size` bytes and converts them with the
byte-order-selected function; `Result::map` leaves errors untouched and
a panic propagates. -/
def read_primitive (r : Raf) (size : Nat)
    (func_le func_be : List Nat → α) :
    Option (Except RafError α × Raf) :=
  match r.bo with
  | .BE => (r.read_bytes size).map (fun p => (p.1.map func_be, p.2))
  | .LE => (r.read_bytes size).map (fun p => (p.1.map func_le, p.2))

/-- `Raf::read_byte`: guard `pos > size`, then the index `data[pos]`,
which panics (`none`) when `pos ≥ data.len()`. -/
def read_byte (r : Raf) : Option (Except RafError Nat × Raf) :=
  if r.pos > r.size then
    some (.error .StartOutOfRange, r)
  else
    match r.data.get? r.pos with
    | some b => some (.ok b, { r with pos := r.pos + 1 })
    | none => none

/-- `Raf::read_u8`: delegates to `read_byte`. -/
def read_u8 (r : Raf) : Option (Except RafError Nat × Raf) :=
  r.read_byte

/-- `x as i8`: two's-complement reinterpretation of a byte. -/
def byteAsI8 (x : Nat) : Int :=
  if x < 128 then (x : Int) else (x : Int) - 256

/-- `Raf::read_i8`: `read_byte` then `as i8` on the success value. -/
def read_i8 (r : Raf) : Option (Except RafError Int × Raf) :=
  r.read_byte.map (fun p => (p.1.map byteAsI8, p.2))

/-- `byteorder` little-endian unsigned read of the first `k` bytes. -/
def leUInt : Nat → List Nat → Nat
  | 0, _ => 0
  | k + 1, b => b.headD 0 + 256 * leUInt k b.tail

/-- `byteorder` big-endian unsigned read of the first `k` bytes. -/
def beUInt (k : Nat) (b : List Nat) : Nat :=
  leUInt k (b.take k).reverse

/-- Two's-complement reinterpretation of a `w`-bit unsigned value. -/
def toSigned (w : Nat) (x : Nat) : Int :=
  if x < 2 ^ (w - 1) then (x : Int) else (x : Int) - 2 ^ w

/-- `Raf::read_f32` (the value is the IEEE-754 bit pattern). -/
def read_f32 (r : Raf) : Option (Except RafError Nat × Raf) :=
  r.read_primitive 4 (leUInt 4) (beUInt 4)

/-- `Raf::read_u64`. -/
def read_u64 (r : Raf) : Option (Except RafError Nat × Raf) :=
  r.read_primitive 8 (leUInt 8) (beUInt 8)

/-- `Raf::read_i64`. -/
def read_i64 (r : Raf) : Option (Except RafError Int × Raf) :=
  r.read_primitive 8 (fun b => toSigned 64 (leUInt 8 b))
    (fun b => toSigned 64 (beUInt 8 b))

/-- `Raf::read_u32`. -/
def read_u32 (r : Raf) : Option (Except RafError Nat × Raf) :=
  r.read_primitive 4 (leUInt 4) (beUInt 4)

/-- `Raf::read_i32`. -/
def read_i32 (r : Raf) : Option (Except RafError Int × Raf) :=
  r.read_primitive 4 (fun b => toSigned 32 (leUInt 4 b))
    (fun b => toSigned 32 (beUInt 4 b))

/-- `Raf::read_u16`. -/
def read_u16 (r : Raf) : Option (Except RafError Nat × Raf) :=
  r.read_primitive 2 (leUInt 2) (beUInt 2)

/-- `Raf::read_i16`. -/
def read_i16 (r : Raf) : Option (Except RafError Int × Raf) :=
  r.read_primitive 2 (fun b => toSigned 16 (leUInt 2 b))
    (fun b => toSigned 16 (beUInt 2 b))

end Raf

/-- Whether a continuation byte is in `0x80..=0xBF`. -/
def utf8Cont (b : Nat) : Bool :=
  0x80 ≤ b && b ≤ 0xBF

/-- The UTF-8 well-formedness check performed by Rust's
`String::from_utf8` (Unicode Table 3-7: ASCII, two-byte `C2..DF`,
three-byte with the `E0`/`ED` overlong and surrogate exclusions,
four-byte with the `F0`/`F4` range exclusions). -/
def utf8Valid : List Nat → Bool
  | [] => true
  | b :: rest =>
    if b ≤ 0x7F then utf8Valid rest
    else if 0xC2 ≤ b && b ≤ 0xDF then
      match rest with
      | c1 :: rest2 => utf8Cont c1 && utf8Valid rest2
      | [] => false
    else if b = 0xE0 then
      match rest with
      | c1 :: c2 :: rest2 =>
        (0xA0 ≤ c1 && c1 ≤ 0xBF) && utf8Cont c2 && utf8Valid rest2
      | _ => false
    else if (0xE1 ≤ b && b ≤ 0xEC) || b = 0xEE || b = 0xEF then
      match rest with
      | c1 :: c2 :: rest2 => utf8Cont c1 && utf8Cont c2 && utf8Valid rest2
      | _ => false
    else if b = 0xED then
      match rest with
      | c1 :: c2 :: rest2 =>
        (0x80 ≤ c1 && c1 ≤ 0x9F) && utf8Cont c2 && utf8Valid rest2
      | _ => false
    else if b = 0xF0 then
      match rest with
      | c1 :: c2 :: c3 :: rest2 =>
        (0x90 ≤ c1 && c1 ≤ 0xBF) && utf8Cont c2 && utf8Cont c3 &&
          utf8Valid rest2
      | _ => false
    else if 0xF1 ≤ b && b ≤ 0xF3 then
      match rest with
      | c1 :: c2 :: c3 :: rest2 =>
        utf8Cont c1 && utf8Cont c2 && utf8Cont c3 && utf8Valid rest2
      | _ => false
    else if b = 0xF4 then
      match rest with
      | c1 :: c2 :: c3 :: rest2 =>
        (0x80 ≤ c1 && c1 ≤ 0x8F) && utf8Cont c2 && utf8Cont c3 &&
          utf8Valid rest2
      | _ => false
    else false

namespace Raf

/-- `Raf::read_string`: reads `len` bytes (`?` propagates the error with
the state as mutated so far), then validates them as UTF-8; invalid
bytes give `StrParseError` with the position already advanced. -/
def read_string (r : Raf) (len : Nat) :
    Option (Except RafError (List Nat) × Raf) :=
  match r.read_bytes len with
  | none => none
  | some (.error e, r2) => some (.error e, r2)
  | some (.ok bytes, r2) =>
    if utf8Valid bytes then some (.ok bytes, r2)
    else some (.error .StrParseError, r2)

/-- A successful `read_byte` advanced the position by one over the same
data, and the position was strictly inside the data. -/
theorem read_byte_ok_inv {r : Raf} {b : Nat} {r2 : Raf}
    (h : r.read_byte = some (.ok b, r2)) :
    r2.data = r.data ∧ r2.pos = r.pos + 1 ∧ r.pos < r.data.length := by
  unfold read_byte at h
  split at h
  · simp at h
  · split at h
    · rename_i b' hget
      simp only [Option.some.injEq, Prod.mk.injEq] at h
      obtain ⟨h1, h2⟩ := h
      subst h2
      exact ⟨rfl, rfl, (List.get?_eq_some.mp hget).1⟩
    · simp at h

/-- `Raf::read_cstr` loop: reads bytes until a `0x00` terminator; the
`.expect("Read string error")` panics (here: `none`) when the underlying
`read_u8` fails, on top of the panic inside `read_u8` itself. -/
def read_cstr_go (r : Raf) (acc : List Nat) :
    Option (Except RafError (List Nat) × Raf) :=
  match h : r.read_u8 with
  | none => none
  | some (.error _, _) => none
  | some (.ok b, r2) =>
    if b = 0 then
      if utf8Valid acc then some (.ok acc, r2)
      else some (.error .StrParseError, r2)
    else read_cstr_go r2 (acc ++ [b])
termination_by r.data.length - r.pos
decreasing_by
  have h' : _ = _ := h
  obtain ⟨hd, hp, hl⟩ := read_byte_ok_inv h'
  rw [hd, hp]
  omega

/-- `Raf::read_cstr`. -/
def read_cstr (r : Raf) : Option (Except RafError (List Nat) × Raf) :=
  read_cstr_go r []

/-- Unfolding `read_cstr_go` when the inner `read_u8` panics. -/
theorem read_cstr_go_none {r : Raf} {acc : List Nat}
    (h : r.read_u8 = none) : read_cstr_go r acc = none := by
  rw [read_cstr_go.eq_def]
  split <;> simp_all

/-- Unfolding `read_cstr_go` when `read_u8` fails: `.expect` panics. -/
theorem read_cstr_go_err {r : Raf} {acc : List Nat} {e : RafError} {s : Raf}
    (h : r.read_u8 = some (.error e, s)) : read_cstr_go r acc = none := by
  rw [read_cstr_go.eq_def]
  split <;> simp_all

/-- Unfolding `read_cstr_go` at a `0x00` terminator. -/
theorem read_cstr_go_zero {r : Raf} {acc : List Nat} {r2 : Raf}
    (h : r.read_u8 = some (.ok 0, r2)) :
    read_cstr_go r acc =
      if utf8Valid acc then some (.ok acc, r2)
      else some (.error .StrParseError, r2) := by
  rw [read_cstr_go.eq_def]
  split <;> simp_all

/-- Unfolding `read_cstr_go` at a non-terminator byte. -/
theorem read_cstr_go_step {r : Raf} {acc : List Nat} {b : Nat} {r2 : Raf}
    (h : r.read_u8 = some (.ok b, r2)) (hb : b ≠ 0) :
    read_cstr_go r acc = read_cstr_go r2 (acc ++ [b]) := by
  rw [read_cstr_go.eq_def]
  split <;> simp_all

end Raf

namespace Raf

/-- Sufficient conditions for `read_bytes` to succeed: it returns the
`num_bytes` bytes starting at `pos` and advances the position. -/
theorem read_bytes_ok {r : Raf} {n : Nat}
    (h1 : 1 ≤ r.pos + n) (h2 : r.pos + n ≤ r.size)
    (h3 : r.pos + n ≤ r.data.length) :
    r.read_bytes n =
      some (.ok ((r.data.drop r.pos).take n), { r with pos := r.pos + n }) := by
  unfold read_bytes
  rw [if_neg (by omega), if_neg (by omega), if_pos h3]

/-- A failing `read_bytes` propagates through `read_primitive` with the
error and the state untouched. -/
theorem read_primitive_err {α : Type} {r : Raf} {k : Nat} {e : RafError}
    {s : Raf} (fle fbe : List Nat → α)
    (h : r.read_bytes k = some (.error e, s)) :
    r.read_primitive k fle fbe = some (.error e, s) := by
  unfold read_primitive
  cases r.bo <;> rw [h] <;> rfl

end Raf

/-- C1: the claim says `read_byte` rejects a position already past the end
with `StartOutOfRange` before reading, and that decoding an empty buffer
with `read_u8`/`read_i8` fails with an out-of-range kind and never
panics.  The code's guard is `pos > size`, so at `pos = size` — in
particular on an empty buffer — the index `data[pos]` is out of bounds
and the program panics (`none`) instead of returning an error. -/
theorem c1_single_byte_readers_panic_at_end :
    (Raf.from_bytes [] .BE).read_u8 = none ∧
    (Raf.from_bytes [] .BE).read_i8 = none ∧
    (Raf.from_bytes [] .BE).read_byte = none ∧
    ((Raf.from_bytes [65] .BE).seek 1).read_byte = none :=
  ⟨rfl, rfl, rfl, rfl⟩

/-- C2: the claim says `read_bytes n` fails with `BufferOverflow` exactly
when `pos + n` exceeds the buffer length and never accesses an index
outside the buffer.  The code's guard `pos + n - 1 > size` lets the case
`pos + n = size + 1` through to an out-of-range slice (a panic, `none`),
and its unsigned underflow at `pos + n = 0` spuriously rejects the empty
read at position 0. -/
theorem c2_read_bytes_boundary_mismatch :
    (Raf.from_bytes [65] .BE).read_bytes 2 = none ∧
    (Raf.from_bytes [65] .BE).read_bytes 0 =
      some (.error .BufferOverflow, Raf.from_bytes [65] .BE) :=
  ⟨rfl, rfl⟩

/-- C3: `seek p` unconditionally sets the position to `p`; a `read_byte`
issued immediately afterwards reads the byte at exactly offset `p`, and
when `p` is beyond the buffer length (`p > size`) the subsequent
`read_byte` fails with `StartOutOfRange` — and any multi-byte
`read_bytes n` with `n ≥ 1` fails with `BufferOverflow` — rather than
panicking or returning data from elsewhere. -/
theorem c3_seek_then_read (r : Raf) (p : Nat) (b : Nat) :
    ((r.seek p).pos = p) ∧
    (r.data.get? p = some b → p ≤ r.size →
      (r.seek p).read_byte = some (.ok b, { r with pos := p + 1 })) ∧
    (p > r.size →
      (r.seek p).read_byte = some (.error .StartOutOfRange, r.seek p)) ∧
    (p > r.size → ∀ n, 1 ≤ n →
      (r.seek p).read_bytes n = some (.error .BufferOverflow, r.seek p)) := by
  refine ⟨rfl, ?_, ?_, ?_⟩
  · intro hget hle
    unfold Raf.read_byte Raf.seek
    simp only
    rw [if_neg (by simp; omega)]
    simp only [List.get?_eq_getElem?] at hget
    simp [hget]
  · intro hgt
    unfold Raf.read_byte Raf.seek
    simp only
    rw [if_pos (by simpa using hgt)]
  · intro hgt n hn
    unfold Raf.read_bytes Raf.seek
    simp only
    rw [if_neg (by simp; omega), if_pos (by simp; omega)]

/-- C3 checked on concrete inputs: an in-bounds seek-then-read returns
the byte at the sought offset, and an out-of-range seek makes the next
reads fail with the out-of-range kinds. -/
theorem c3_seek_then_read_checked :
    ((Raf.from_bytes [5, 6, 7] .BE).seek 1).read_byte =
      some (.ok 6, { data := [5, 6, 7], size := 3, pos := 2, bo := .BE }) ∧
    ((Raf.from_bytes [5, 6, 7] .BE).seek 9).read_byte =
      some (.error .StartOutOfRange, (Raf.from_bytes [5, 6, 7] .BE).seek 9) ∧
    ((Raf.from_bytes [5, 6, 7] .BE).seek 9).read_bytes 4 =
      some (.error .BufferOverflow, (Raf.from_bytes [5, 6, 7] .BE).seek 9) :=
  ⟨(c3_seek_then_read (Raf.from_bytes [5, 6, 7] .BE) 1 6).2.1 rfl (by decide),
   (c3_seek_then_read (Raf.from_bytes [5, 6, 7] .BE) 9 0).2.2.1 (by decide),
   (c3_seek_then_read (Raf.from_bytes [5, 6, 7] .BE) 9 0).2.2.2 (by decide) 4
     (by decide)⟩

/-- C4 as stated is false: `read_u8` is a fixed-width typed decoder, and
on an out-of-bounds request it fails with `StartOutOfRange`, not
`BufferOverflow` (it reads through `read_byte`, not `read_bytes`). -/
theorem c4_counterexample :
    ((Raf.from_bytes [65] .BE).seek 5).read_u8 =
      some (.error .StartOutOfRange, (Raf.from_bytes [65] .BE).seek 5) ∧
    RafError.StartOutOfRange ≠ RafError.BufferOverflow :=
  ⟨rfl, by decide⟩

/-- C4 amended: the multi-byte decoders (u16/i16/u32/i32/u64/i64/f32)
read through `read_bytes` and propagate its failure — always
`BufferOverflow` — unchanged, adding no bounds logic of their own; the
single-byte decoders (u8/i8) read through `read_byte` instead and
propagate its failure, which is always `StartOutOfRange`. -/
theorem c4_decoders_propagate_errors (r : Raf) :
    (∀ e s, r.read_bytes 2 = some (.error e, s) →
      r.read_u16 = some (.error e, s) ∧ r.read_i16 = some (.error e, s)) ∧
    (∀ e s, r.read_bytes 4 = some (.error e, s) →
      r.read_u32 = some (.error e, s) ∧ r.read_i32 = some (.error e, s) ∧
      r.read_f32 = some (.error e, s)) ∧
    (∀ e s, r.read_bytes 8 = some (.error e, s) →
      r.read_u64 = some (.error e, s) ∧ r.read_i64 = some (.error e, s)) ∧
    (∀ n e s, r.read_bytes n = some (.error e, s) → e = .BufferOverflow) ∧
    (∀ e s, r.read_byte = some (.error e, s) →
      e = .StartOutOfRange ∧ r.read_u8 = some (.error e, s) ∧
      r.read_i8 = some (.error e, s)) := by
  refine ⟨fun e s h => ⟨Raf.read_primitive_err _ _ h, Raf.read_primitive_err _ _ h⟩,
    fun e s h => ⟨Raf.read_primitive_err _ _ h, Raf.read_primitive_err _ _ h,
      Raf.read_primitive_err _ _ h⟩,
    fun e s h => ⟨Raf.read_primitive_err _ _ h, Raf.read_primitive_err _ _ h⟩,
    ?_, ?_⟩
  · intro n e s h
    unfold Raf.read_bytes at h
    split at h
    · simp_all
    · split at h
      · simp_all
      · split at h <;> simp_all
  · intro e s h
    have he : e = .StartOutOfRange := by
      unfold Raf.read_byte at h
      split at h
      · simp_all
      · split at h <;> simp_all
    refine ⟨he, h, ?_⟩
    unfold Raf.read_i8
    rw [h]
    rfl

/-- C4 amended, checked at a concrete out-of-range state: the 16-bit
decoder returns `read_bytes`'s `BufferOverflow` unchanged and the 8-bit
decoder returns `read_byte`'s `StartOutOfRange` unchanged. -/
theorem c4_decoders_propagate_errors_checked :
    ((Raf.from_bytes [65] .BE).seek 5).read_u16 =
      some (.error .BufferOverflow, (Raf.from_bytes [65] .BE).seek 5) ∧
    ((Raf.from_bytes [65] .BE).seek 5).read_i8 =
      some (.error .StartOutOfRange, (Raf.from_bytes [65] .BE).seek 5) :=
  ⟨((c4_decoders_propagate_errors ((Raf.from_bytes [65] .BE).seek 5)).1 _ _
      rfl).1,
   ((c4_decoders_propagate_errors ((Raf.from_bytes [65] .BE).seek 5)).2.2.2.2
      _ _ rfl).2.2⟩

/-- C5: the claim says a missing `0x00` terminator makes the underlying
byte-read failure propagate to the caller as a returned error.  The code
instead crashes (`none`): with the cursor inside the buffer the final
`read_u8` panics on the out-of-bounds index, and with the cursor past
the buffer the `.expect("Read string error")` panics on the `Err`. -/
theorem c5_read_cstr_crashes_without_terminator :
    (Raf.from_bytes [65] .BE).read_cstr = none ∧
    ((Raf.from_bytes [65] .BE).seek 5).read_cstr = none := by
  constructor
  · have hstep : (Raf.from_bytes [65] .BE).read_u8 =
        some (.ok 65, { data := [65], size := 1, pos := 1, bo := .BE }) := rfl
    have hend : Raf.read_u8 { data := [65], size := 1, pos := 1, bo := .BE } =
        none := rfl
    rw [Raf.read_cstr, Raf.read_cstr_go_step hstep (by decide),
      Raf.read_cstr_go_none hend]
  · have herr : ((Raf.from_bytes [65] .BE).seek 5).read_u8 =
        some (.error .StartOutOfRange, (Raf.from_bytes [65] .BE).seek 5) := rfl
    rw [Raf.read_cstr, Raf.read_cstr_go_err herr]

/-- C6 as stated is false at `n = 0`: `0 ≤ len([])`, but
`from_bytes([])` followed by `read_bytes(0)` does not succeed — the
unsigned underflow in the guard makes it fail with `BufferOverflow`. -/
theorem c6_counterexample :
    0 ≤ ([] : List Nat).length ∧
    (Raf.from_bytes [] .BE).read_bytes 0 =
      some (.error .BufferOverflow, Raf.from_bytes [] .BE) :=
  ⟨by decide, rfl⟩

/-- C6 amended: for every byte sequence `b` and every `n` with
`1 ≤ n ≤ len(b)`, `from_bytes(b)` followed by `read_bytes(n)` succeeds,
returns exactly the prefix `b[0..n]`, and leaves the position at `n`. -/
theorem c6_read_bytes_returns_initial_segment (b : List Nat)
    (bo : RafByteOrder) (n : Nat) (h1 : 1 ≤ n) (h2 : n ≤ b.length) :
    (Raf.from_bytes b bo).read_bytes n =
      some (.ok (b.take n),
        { data := b, size := b.length, pos := n, bo := bo }) := by
  have h := Raf.read_bytes_ok (r := Raf.from_bytes b bo) (n := n)
    (by simpa [Raf.from_bytes] using h1)
    (by simpa [Raf.from_bytes] using h2)
    (by simpa [Raf.from_bytes] using h2)
  simpa [Raf.from_bytes] using h

/-- C6 amended, checked on a concrete buffer. -/
theorem c6_read_bytes_returns_initial_segment_checked :
    (Raf.from_bytes [10, 20, 30] .BE).read_bytes 2 =
      some (.ok [10, 20],
        { data := [10, 20, 30], size := 3, pos := 2, bo := .BE }) :=
  c6_read_bytes_returns_initial_segment [10, 20, 30] .BE 2 (by decide)
    (by decide)

/-- C7: `adv d` fails with `StartOutOfRange` and leaves the position (and
the whole state) unchanged when `pos + d` exceeds `size`; otherwise it
succeeds and sets the position to `pos + d`. -/
theorem c7_adv_bounds (r : Raf) (d : Nat) :
    (r.pos + d > r.size → r.adv d = (.error .StartOutOfRange, r)) ∧
    (r.pos + d ≤ r.size →
      r.adv d = (.ok (), { r with pos := r.pos + d })) := by
  constructor
  · intro h
    unfold Raf.adv
    rw [if_pos h]
  · intro h
    unfold Raf.adv
    rw [if_neg (by omega)]

/-- C7 checked on concrete inputs: an overrunning advance fails and
leaves the state untouched, an in-bounds advance moves the position. -/
theorem c7_adv_bounds_checked :
    (Raf.from_bytes [1, 2, 3] .BE).adv 5 =
      (.error .StartOutOfRange, Raf.from_bytes [1, 2, 3] .BE) ∧
    (Raf.from_bytes [1, 2, 3] .BE).adv 2 =
      (.ok (), { data := [1, 2, 3], size := 3, pos := 2, bo := .BE }) :=
  ⟨(c7_adv_bounds (Raf.from_bytes [1, 2, 3] .BE) 5).1 (by decide),
   (c7_adv_bounds (Raf.from_bytes [1, 2, 3] .BE) 2).2 (by decide)⟩

/-- C8: `seek_read p f` is exactly `seek p` followed by `f`: it returns
the same value or error as the separate calls and leaves the buffer in
the same final state, with the position wherever `f` left it (the seek
itself having set it to `p`). -/
theorem c8_seek_read_composes {α : Type} (r : Raf) (p : Nat)
    (f : Raf → Option (Except RafError α × Raf)) :
    r.seek_read p f = f (r.seek p) ∧ (r.seek p).pos = p :=
  ⟨rfl, rfl⟩

/-- C9 as stated is false at `len = 0`, `pos = 0`: the zero bytes there
are in bounds and are valid UTF-8, yet `read_string 0` fails with
`BufferOverflow` (the underflowing guard of `read_bytes`) instead of
returning the empty string. -/
theorem c9_counterexample :
    utf8Valid (((Raf.from_bytes [65] .BE).data.drop 0).take 0) = true ∧
    (Raf.from_bytes [65] .BE).read_string 0 =
      some (.error .BufferOverflow, Raf.from_bytes [65] .BE) :=
  ⟨rfl, rfl⟩

/-- C9 amended: for every buffer state (with the `size = data.len()`
invariant every constructor establishes) and every `len` with the `len`
bytes at `pos` in bounds and `1 ≤ pos + len`, `read_string len` fails
with `StrParseError` when those bytes are not valid UTF-8 — the position
nonetheless advanced by `len` — and returns exactly those bytes when
they are valid UTF-8. -/
theorem c9_read_string_utf8 (r : Raf) (len : Nat)
    (hs : r.size = r.data.length) (h1 : 1 ≤ r.pos + len)
    (h2 : r.pos + len ≤ r.size) :
    (utf8Valid ((r.data.drop r.pos).take len) = false →
      r.read_string len =
        some (.error .StrParseError, { r with pos := r.pos + len })) ∧
    (utf8Valid ((r.data.drop r.pos).take len) = true →
      r.read_string len =
        some (.ok ((r.data.drop r.pos).take len),
          { r with pos := r.pos + len })) := by
  have hb := Raf.read_bytes_ok (r := r) (n := len) h1 h2 (by omega)
  constructor <;> intro hv <;> unfold Raf.read_string <;> rw [hb] <;>
    simp [hv]

/-- C9 amended, checked on concrete buffers: three invalid bytes give
`StrParseError` with the position advanced past them, three ASCII bytes
come back as the string `"ABC"` (byte form). -/
theorem c9_read_string_utf8_checked :
    (Raf.from_bytes [255, 254, 253] .BE).read_string 3 =
      some (.error .StrParseError,
        { data := [255, 254, 253], size := 3, pos := 3, bo := .BE }) ∧
    (Raf.from_bytes [65, 66, 67] .BE).read_string 3 =
      some (.ok [65, 66, 67],
        { data := [65, 66, 67], size := 3, pos := 3, bo := .BE }) :=
  ⟨(c9_read_string_utf8 (Raf.from_bytes [255, 254, 253] .BE) 3 rfl
      (by decide) (by decide)).1 (by decide),
   (c9_read_string_utf8 (Raf.from_bytes [65, 66, 67] .BE) 3 rfl
      (by decide) (by decide)).2 (by decide)⟩

/-- C10: whenever `read_bytes` returns `BufferOverflow` or `read_byte`
returns `StartOutOfRange`, the returned buffer state is exactly the
input state — the bounds check happens before any mutation, so `pos`,
`data` and `size` are unchanged. -/
theorem c10_failed_reads_leave_state_unchanged (r : Raf) (n : Nat)
    (s : Raf) :
    (r.read_bytes n = some (.error .BufferOverflow, s) → s = r) ∧
    (r.read_byte = some (.error .StartOutOfRange, s) → s = r) := by
  constructor
  · intro h
    unfold Raf.read_bytes at h
    split at h
    · simp_all
    · split at h
      · simp_all
      · split at h <;> simp_all
  · intro h
    unfold Raf.read_byte at h
    split at h
    · simp_all
    · split at h <;> simp_all

/-- C10 checked on concrete failing reads: the state coming back with
the error is the very state that went in. -/
theorem c10_failed_reads_leave_state_unchanged_checked :
    Raf.from_bytes [] .BE = Raf.from_bytes [] .BE ∧
    (Raf.from_bytes [65] .BE).seek 9 = (Raf.from_bytes [65] .BE).seek 9 :=
  ⟨(c10_failed_reads_leave_state_unchanged (Raf.from_bytes [] .BE) 2
      (Raf.from_bytes [] .BE)).1 rfl,
   (c10_failed_reads_leave_state_unchanged ((Raf.from_bytes [65] .BE).seek 9)
      0 ((Raf.from_bytes [65] .BE).seek 9)).2 rfl⟩
